import Mathlib

/-!
# Verification of `plot_benchmark.py`

A shallow embedding of the log-parsing utility `src/plot_benchmark.py`.

Modelling conventions:
* A text file is modelled by the list of its lines, each line a `List Char`
  (the trailing newline of a Python file-iteration line is whitespace and is
  removed by `line.strip()`, so it is immaterial whether it is included).
* Python `float(s)` is modelled by exact rational parsing of finite decimal
  literals (optional sign, digits, optional fractional part); `int(x)` on a
  float is truncation toward zero, modelled by `truncQ` on `ℚ`.
* `datetime.utcfromtimestamp(epoch)` is injective and total on the epochs the
  model produces, so a timestamp in the series is represented by the integer
  `epoch` itself.
* The plotting backend and the file system are outside the embedding; `main`
  records the exit code, the diagnostic lines, and whether `plot` was invoked.
-/

namespace PlotBenchmark

/-- Python's default whitespace class used by `str.strip()` and `str.split()`
(CPython `Py_UNICODE_ISSPACE`): tab through carriage return (9-13), the file
and record separators 28-31, space, next line 0x85, no-break space 0xa0,
ogham space 0x1680, the typographic spaces 0x2000-0x200a, the line and
paragraph separators 0x2028-0x2029, narrow no-break space 0x202f, medium
mathematical space 0x205f, and ideographic space 0x3000. -/
def isWSC (c : Char) : Bool :=
  (9 ≤ c.toNat && c.toNat ≤ 13) || (28 ≤ c.toNat && c.toNat ≤ 31) ||
    c.toNat = 32 || c.toNat = 133 || c.toNat = 160 || c.toNat = 5760 ||
    (8192 ≤ c.toNat && c.toNat ≤ 8202) || c.toNat = 8232 || c.toNat = 8233 ||
    c.toNat = 8239 || c.toNat = 8287 || c.toNat = 12288

/-- ASCII decimal digit test, as used by Python numeric literal parsing. -/
def isDigitC (c : Char) : Bool :=
  48 ≤ c.toNat && c.toNat ≤ 57

/-- `line.strip()`: remove leading and trailing whitespace. -/
def pyStrip (cs : List Char) : List Char :=
  ((cs.dropWhile isWSC).reverse.dropWhile isWSC).reverse

/-- Worker for `pySplitWS`, accumulating the current token in reverse. -/
def splitWSAux : List Char → List Char → List (List Char)
  | [], acc => if acc.isEmpty then [] else [acc.reverse]
  | c :: cs, acc =>
    if isWSC c then
      if acc.isEmpty then splitWSAux cs [] else acc.reverse :: splitWSAux cs []
    else
      splitWSAux cs (c :: acc)

/-- `line.split()`: split on runs of whitespace, discarding empty tokens. -/
def pySplitWS (cs : List Char) : List (List Char) := splitWSAux cs []

/-- The first sentinel line-start literal of `read_log` (line 28). -/
def monStart : List Char := "monitor start".data

/-- The second sentinel line-start literal of `read_log` (line 28). -/
def iostatTag : List Char := "[iostat]".data

/-- `line.startswith("monitor start") or line.startswith("[iostat]")`. -/
def sentinelB (cs : List Char) : Bool :=
  monStart.isPrefixOf cs || iostatTag.isPrefixOf cs

/-- Value of a most-significant-first string of decimal digits. -/
def natOfDigits : List Char → Nat
  | [] => 0
  | c :: cs => (c.toNat - 48) * 10 ^ cs.length + natOfDigits cs

/-- Split an optional leading sign off a numeric literal. -/
def splitSign (cs : List Char) : Int × List Char :=
  match cs with
  | [] => (1, [])
  | c :: r => if c = '+' then (1, r) else if c = '-' then (-1, r) else (1, c :: r)

/-- The rational value `sg * (ip . fp)` of a signed decimal literal with
integer digits `ip` and fraction digits `fp`, built with `mkRat` so that it
is kernel-computable.  `pyFloatVal_eq` below restates it with `ℚ` field
operations. -/
def pyFloatVal (sg : Int) (ip fp : List Char) : ℚ :=
  mkRat (sg * (natOfDigits ip * 10 ^ fp.length + natOfDigits fp : Nat)) (10 ^ fp.length)

/-- Python `float(s)` on a whitespace-free token, modelled exactly over `ℚ`:
an optional sign, then digits with at most one decimal point and at least one
digit overall.  Strings outside this grammar yield `none` (Python raises
`ValueError` there, which `read_log` catches and turns into a skip). -/
def pyFloatChars (cs : List Char) : Option ℚ :=
  let p := splitSign cs
  let ip := p.2.takeWhile isDigitC
  let rest := p.2.dropWhile isDigitC
  match rest with
  | [] => if ip.isEmpty then none else some (pyFloatVal p.1 ip [])
  | d :: fp =>
    if d = '.' ∧ fp.all isDigitC ∧ (¬ ip.isEmpty ∨ ¬ fp.isEmpty) then
      some (pyFloatVal p.1 ip fp)
    else none

/-- Python `int(...)` applied to a (rational-modelled) float: truncation toward
zero (`Int.tdiv` is t-division).  `truncQ_eq_floor` / `truncQ_eq_ceil` below
restate it through `⌊·⌋` and `⌈·⌉`. -/
def truncQ (q : ℚ) : Int := q.num.tdiv q.den

/-- The body of `read_log`'s loop for one line (lines 25–42): strip, skip
blank and sentinel lines, split, require 3 fields, parse `parts[0]` and
`parts[2]`, and return the sample, or `none` when the line is skipped. -/
def parseLine (raw : List Char) : Option (Int × ℚ) :=
  let line := pyStrip raw
  if line.isEmpty then none
  else if sentinelB line then none
  else
    let parts := pySplitWS line
    if parts.length < 3 then none
    else
      match pyFloatChars (parts.getD 0 []), pyFloatChars (parts.getD 2 []) with
      | some a, some b => some (truncQ a, b)
      | _, _ => none

/-- The `for line in f` loop of `read_log`, threading the two accumulator
lists `ts` and `mbps` and appending one element to each accepted line. -/
def readLogLoop : List (List Char) → List Int × List ℚ → List Int × List ℚ
  | [], acc => acc
  | l :: ls, acc =>
    match parseLine l with
    | none => readLogLoop ls acc
    | some p => readLogLoop ls (acc.1 ++ [p.1], acc.2 ++ [p.2])

/-- `read_log(path)` (lines 19–44), with the file given by its lines: returns
the pair `(ts, mbps)` built by the loop from empty accumulators. -/
def read_log (fileLines : List (List Char)) : List Int × List ℚ :=
  readLogLoop fileLines ([], [])

/-- Observable outcome of one run of `main`: the returned exit code, the
lines printed to stderr and stdout, and whether `plot` was invoked. -/
structure MainResult where
  exitCode : Nat
  stderrLines : List String
  stdoutLines : List String
  plotCalled : Bool
deriving DecidableEq

/-- The usage diagnostic printed on a wrong argument count (line 60). -/
def usageMsg (argv : List String) : String :=
  "Usage: " ++ argv.getD 0 "" ++ " <log-file> <output.jpg>"

/-- `main()` (lines 58–71) over the argument vector (including the program
name, as `sys.argv` does) and the contents of the log file.  Filesystem and
renderer failures are outside the model: the log file is given by its lines
and `plot` is recorded as invoked rather than executed. -/
def main (argv : List String) (fileLines : List (List Char)) : MainResult :=
  if argv.length ≠ 3 then
    { exitCode := 1, stderrLines := [usageMsg argv], stdoutLines := [], plotCalled := false }
  else
    let r := read_log fileLines
    if r.1.isEmpty then
      { exitCode := 1, stderrLines := ["No data points found."], stdoutLines := [],
        plotCalled := false }
    else
      { exitCode := 0, stderrLines := [],
        stdoutLines := ["Wrote " ++ argv.getD 2 ""], plotCalled := true }

/-! ## The faithful numeric layer

The definitions above (`pyFloatChars`, `parseLine`, `read_log`) restrict
Python's `float()` to plain decimal literals and model every failure as a
skip; the structural claims (paired appends, dependence on fields 0 and 2,
`main`'s branches, the sentinel scenarios) do not depend on that restriction.
The claims about the numeric pipeline do, so the layer below models it
faithfully: the full `float()` token grammar (signs, exponents, PEP 515
underscores, case-insensitive `inf`/`infinity`/`nan`), correct binary64
round-to-nearest-even of the exact decimal value, and the two uncaught
exceptions of `read_log` — `int(float(parts[0]))` raising `OverflowError` on
an infinity (line 36; the `except` at line 38 catches only `ValueError`),
and `datetime.utcfromtimestamp(epoch)` raising `ValueError` outside years
1..9999 (line 41, outside the `try`).  Scope: tokens are ASCII; CPython
additionally maps Unicode decimal digits to ASCII before parsing, which is
outside this model, so the file-level theorems carry an ASCII hypothesis. -/

/-- Lower-case an ASCII letter, as CPython does when matching the
`inf`/`infinity`/`nan` keywords case-insensitively. -/
def toLowerC (c : Char) : Char :=
  if 65 ≤ c.toNat ∧ c.toNat ≤ 90 then Char.ofNat (c.toNat + 32) else c

/-- Fuel-driven worker for `bitLen` (the fuel only bounds the recursion
depth; `n` halves each step). -/
def bitLenAux : Nat → Nat → Nat
  | 0, _ => 0
  | fuel + 1, n => if n = 0 then 0 else bitLenAux fuel (n / 2) + 1

/-- Number of binary digits of `n` (0 for 0). -/
def bitLen (n : Nat) : Nat := bitLenAux n n

/-- Decide `2 ^ k ≤ a / b` for positive naturals `a`, `b`. -/
def le2pow (a b : ℕ) (k : ℤ) : Bool :=
  if 0 ≤ k then decide (b * 2 ^ k.toNat ≤ a) else decide (b ≤ a * 2 ^ (-k).toNat)

/-- `⌊log2 (a / b)⌋` for positive naturals `a`, `b`. -/
def floorLog2 (a b : ℕ) : ℤ :=
  let k0 : ℤ := (bitLen a : ℤ) - (bitLen b : ℤ)
  if le2pow a b (k0 + 1) then k0 + 1
  else if le2pow a b k0 then k0
  else k0 - 1

/-- Round a positive rational to the nearest binary64 value (ties to even),
including subnormals; `none` means overflow to infinity.  The result is the
exact rational value of the rounded double. -/
def roundPosB64 (q : ℚ) : Option ℚ :=
  let a := q.num.toNat
  let b := q.den
  let e := floorLog2 a b
  let p : ℤ := max (e - 52) (-1074)
  let na := if 0 ≤ p then a else a * 2 ^ (-p).toNat
  let nb := if 0 ≤ p then b * 2 ^ p.toNat else b
  let n := na / nb
  let r := na % nb
  let m := if 2 * r < nb then n
           else if nb < 2 * r then n + 1
           else if n % 2 = 0 then n else n + 1
  let m2 := if m = 2 ^ 53 then 2 ^ 52 else m
  let p2 := if m = 2 ^ 53 then p + 1 else p
  if 971 < p2 then none
  else some (if 0 ≤ p2 then mkRat (m2 * 2 ^ p2.toNat : ℕ) 1
             else mkRat (m2 : ℕ) (2 ^ (-p2).toNat))

/-- The values `float()` can produce: a finite binary64 (represented by its
exact rational value), a signed infinity, or NaN.  Signed zero is collapsed
to 0, which is observationally equal for everything `read_log` does. -/
inductive PyFloatV
  | fin (q : ℚ)
  | posInf
  | negInf
  | nan
deriving DecidableEq

/-- PEP 515 digit run: decimal digits with single underscores strictly
between digits; returns the digits with the underscores removed, `none` when
the run is malformed. -/
def digitsU? : List Char → Option (List Char)
  | [] => none
  | [c] => if isDigitC c then some [c] else none
  | c :: '_' :: rest =>
    if isDigitC c then
      match rest with
      | [] => none
      | d :: _ => if isDigitC d then (digitsU? rest).map (c :: ·) else none
    else none
  | c :: c2 :: rest =>
    if isDigitC c then (digitsU? (c2 :: rest)).map (c :: ·) else none

/-- Python `float(token)` on a whitespace-free ASCII token: optional sign,
then `inf`/`infinity`/`nan` case-insensitively, or a decimal literal
(digits with PEP 515 underscores, at most one point, optional exponent),
whose exact value is rounded to the nearest binary64; decimal overflow gives
an infinity, as `float("1e400")` does.  `none` models `ValueError`.  Tokens
with non-ASCII characters are outside the model and map to `none` (CPython
first transforms Unicode decimal digits to ASCII). -/
def pyFloat? (cs : List Char) : Option PyFloatV :=
  if cs.any (fun c => decide (128 ≤ c.toNat)) then none
  else
    let neg := match cs with | '-' :: _ => true | _ => false
    let body := match cs with | '+' :: r => r | '-' :: r => r | r => r
    let lower := body.map toLowerC
    if lower = "inf".data ∨ lower = "infinity".data then
      some (if neg then .negInf else .posInf)
    else if lower = "nan".data then some .nan
    else
      let mant := body.takeWhile fun c => !(c == 'e' || c == 'E')
      let expPart := body.dropWhile fun c => !(c == 'e' || c == 'E')
      let ipRaw := mant.takeWhile (· != '.')
      let fpRest := mant.dropWhile (· != '.')
      let ipD : Option (List Char) :=
        if ipRaw.isEmpty then some [] else digitsU? ipRaw
      let fpD : Option (List Char) :=
        match fpRest with
        | [] => some []
        | _ :: fpRaw => if fpRaw.isEmpty then some [] else digitsU? fpRaw
      let eV : Option Int :=
        match expPart with
        | [] => some 0
        | _ :: ebody =>
          let es := match ebody with | '-' :: _ => true | _ => false
          let edRaw := match ebody with | '+' :: r => r | '-' :: r => r | r => r
          match digitsU? edRaw with
          | none => none
          | some ed =>
            some (if es then -(natOfDigits ed : Int) else (natOfDigits ed : Int))
      match ipD, fpD, eV with
      | some ip, some fp, some ex =>
        if ip.isEmpty ∧ fp.isEmpty then none
        else
          let M := natOfDigits (ip ++ fp)
          let e10 : Int := ex - fp.length
          let mag : ℚ :=
            if 0 ≤ e10 then mkRat (M * 10 ^ e10.toNat : ℕ) 1
            else mkRat (M : ℕ) (10 ^ (-e10).toNat)
          if M = 0 then some (.fin 0)
          else
            match roundPosB64 mag with
            | some v => some (.fin (if neg then mkRat (-v.num) v.den else v))
            | none => some (if neg then .negInf else .posInf)
      | _, _, _ => none

/-- Smallest epoch `datetime.utcfromtimestamp` accepts
(0001-01-01T00:00:00). -/
def minEpoch : Int := -62135596800

/-- Largest epoch `datetime.utcfromtimestamp` accepts
(9999-12-31T23:59:59). -/
def maxEpoch : Int := 253402300799

/-- The two uncaught exceptions a line can raise inside `read_log`:
`OverflowError` from `int(float(parts[0]))` on an infinity (line 36; the
`except` on line 38 catches only `ValueError`), and the `ValueError` of
`datetime.utcfromtimestamp` on line 41 (outside the `try`) for an epoch
outside years 1..9999. -/
inductive Crash
  | intOfInf
  | timestampRange (epoch : Int)
deriving DecidableEq

instance decEqExcept {ε α : Type} [DecidableEq ε] [DecidableEq α] :
    DecidableEq (Except ε α) := fun a b =>
  match a, b with
  | .error e, .error f =>
    if h : e = f then isTrue (by rw [h]) else isFalse fun hc => h (by injection hc)
  | .error _, .ok _ => isFalse fun hc => Except.noConfusion hc
  | .ok _, .error _ => isFalse fun hc => Except.noConfusion hc
  | .ok v, .ok w =>
    if h : v = w then isTrue (by rw [h]) else isFalse fun hc => h (by injection hc)

/-- The faithful per-line semantics of `read_log`'s loop body (lines 25-42):
strip, skip blank/sentinel/short lines, convert `parts[0]` via
`int(float(...))` — a `ValueError` (unparsable token or NaN) is caught and
skips the line, an infinity raises `OverflowError` — then parse `parts[2]`
(a `ValueError` skips the line), and finally `utcfromtimestamp` on the
epoch, which raises for an out-of-range epoch.  `.ok none` is a skipped
line, `.ok (some s)` an appended sample, `.error` an uncaught exception. -/
def parseLineE (raw : List Char) : Except Crash (Option (Int × PyFloatV)) :=
  let line := pyStrip raw
  if line.isEmpty then .ok none
  else if sentinelB line then .ok none
  else
    let parts := pySplitWS line
    if parts.length < 3 then .ok none
    else
      match pyFloat? (parts.getD 0 []) with
      | none => .ok none
      | some .nan => .ok none
      | some .posInf => .error .intOfInf
      | some .negInf => .error .intOfInf
      | some (.fin q) =>
        match pyFloat? (parts.getD 2 []) with
        | none => .ok none
        | some v =>
          if truncQ q < minEpoch ∨ maxEpoch < truncQ q then
            .error (.timestampRange (truncQ q))
          else .ok (some (truncQ q, v))

/-- The sample a line contributes when it does not crash the run. -/
def sampleOf (raw : List Char) : Option (Int × PyFloatV) :=
  match parseLineE raw with
  | .ok o => o
  | .error _ => none

/-- The `for line in f` loop of `read_log` under the faithful semantics: an
uncaught exception aborts the whole run. -/
def readLogLoopE :
    List (List Char) → List Int × List PyFloatV →
      Except Crash (List Int × List PyFloatV)
  | [], acc => .ok acc
  | l :: ls, acc =>
    match parseLineE l with
    | .error e => .error e
    | .ok none => readLogLoopE ls acc
    | .ok (some p) => readLogLoopE ls (acc.1 ++ [p.1], acc.2 ++ [p.2])

/-- `read_log` under the faithful semantics: either the two series, or the
uncaught exception that aborted the run. -/
def read_logE (fileLines : List (List Char)) :
    Except Crash (List Int × List PyFloatV) :=
  readLogLoopE fileLines ([], [])

/-- A line of ASCII characters (the scope of the numeric model). -/
def asciiLine (l : List Char) : Bool := l.all fun c => decide (c.toNat < 128)

/-- The acceptance condition of the faithful semantics: non-blank,
non-sentinel, at least 3 fields, field 0 a finite float whose truncation is
an epoch `utcfromtimestamp` accepts, field 2 any parsable float. -/
def goodLineE (raw : List Char) : Bool :=
  !(pyStrip raw).isEmpty && !sentinelB (pyStrip raw) &&
    decide (3 ≤ (pySplitWS (pyStrip raw)).length) &&
    (match pyFloat? ((pySplitWS (pyStrip raw)).getD 0 []) with
     | some (.fin q) => decide (minEpoch ≤ truncQ q ∧ truncQ q ≤ maxEpoch)
     | _ => false) &&
    (pyFloat? ((pySplitWS (pyStrip raw)).getD 2 [])).isSome

/-- C1's condition as the claim states it: non-blank, non-sentinel, at
least 3 fields, and fields 0 and 2 parse as numbers (`float()` succeeds). -/
def claimC1Line (raw : List Char) : Bool :=
  !(pyStrip raw).isEmpty && !sentinelB (pyStrip raw) &&
    decide (3 ≤ (pySplitWS (pyStrip raw)).length) &&
    (pyFloat? ((pySplitWS (pyStrip raw)).getD 0 [])).isSome &&
    (pyFloat? ((pySplitWS (pyStrip raw)).getD 2 [])).isSome

/-- C3's skip categories as the claim states them, over the faithful
parser: fewer than 3 fields, unparsable field 0 or field 2, blank content,
or a sentinel start. -/
def specBadLineE (raw : List Char) : Bool :=
  decide ((pySplitWS (pyStrip raw)).length < 3) ||
    (pyFloat? ((pySplitWS (pyStrip raw)).getD 0 [])).isNone ||
    (pyFloat? ((pySplitWS (pyStrip raw)).getD 2 [])).isNone ||
    (pyStrip raw).isEmpty || sentinelB (pyStrip raw)

/-- A line whose field 0 is an infinity and that reaches the epoch
conversion: the one way a line in C3's skip categories can still crash. -/
def infTimestampLine (raw : List Char) : Bool :=
  !(pyStrip raw).isEmpty && !sentinelB (pyStrip raw) &&
    decide (3 ≤ (pySplitWS (pyStrip raw)).length) &&
    (match pyFloat? ((pySplitWS (pyStrip raw)).getD 0 []) with
     | some .posInf => true
     | some .negInf => true
     | _ => false)

/-- A speed value that is a non-negative real number. -/
def speedNonnegB : PyFloatV → Bool
  | .fin q => decide (0 ≤ q)
  | _ => false

/-- The loop of `read_log` appends, per accepted line and in file order, one
element to each accumulator. -/
theorem readLogLoop_eq (ls : List (List Char)) : ∀ acc,
    readLogLoop ls acc =
      (acc.1 ++ (ls.filterMap parseLine).map Prod.fst,
       acc.2 ++ (ls.filterMap parseLine).map Prod.snd) := by
  induction ls with
  | nil => intro acc; simp [readLogLoop]
  | cons l ls ih =>
    intro acc
    cases h : parseLine l with
    | none => simp [readLogLoop, h, ih]
    | some p => simp [readLogLoop, h, ih]

/-- `read_log` is the per-line parser mapped over the file, split into its
two components. -/
theorem read_log_eq (ls : List (List Char)) :
    read_log ls =
      ((ls.filterMap parseLine).map Prod.fst, (ls.filterMap parseLine).map Prod.snd) := by
  simp [read_log, readLogLoop_eq]

/-- The pairing of the two output sequences recovers the per-line samples. -/
theorem zip_map_fst_snd {α β : Type} (m : List (α × β)) :
    (m.map Prod.fst).zip (m.map Prod.snd) = m := by
  induction m with
  | nil => rfl
  | cons p m ih => simp [ih]

/-! ## Claims -/

/-- C2: the two sequences returned by `read_log` have equal length, and the
pair at any index `i` of the two sequences is the sample of a single log
line of the file. -/
theorem read_log_parallel_sequences (ls : List (List Char)) (i : Nat) :
    (read_log ls).1.length = (read_log ls).2.length ∧
    (i < (read_log ls).1.length →
      ∃ l ∈ ls, parseLine l = some ((read_log ls).1.getD i 0, (read_log ls).2.getD i 0)) := by
  rw [read_log_eq]
  constructor
  · simp
  · intro hi
    simp only [List.length_map] at hi
    obtain ⟨p, hp⟩ :=
      Option.isSome_iff_exists.mp (by rw [List.get?_eq_get hi]; rfl :
        (( ls.filterMap parseLine).get? i).isSome = true)
    refine ⟨?_, ?_, ?_⟩
    · exact Classical.choose (List.mem_filterMap.mp (List.get?_mem hp))
    · exact (Classical.choose_spec (List.mem_filterMap.mp (List.get?_mem hp))).1
    · have h2 := (Classical.choose_spec (List.mem_filterMap.mp (List.get?_mem hp))).2
      rw [h2]
      have hp' : (ls.filterMap parseLine)[i]? = some p := by
        rw [← List.get?_eq_getElem?]; exact hp
      have hfst : ((ls.filterMap parseLine).map Prod.fst).getD i 0 = p.1 := by
        rw [List.getD_eq_getElem?_getD, List.getElem?_map, hp']; rfl
      have hsnd : ((ls.filterMap parseLine).map Prod.snd).getD i 0 = p.2 := by
        rw [List.getD_eq_getElem?_getD, List.getElem?_map, hp']; rfl
      rw [hfst, hsnd]

/-- Witness for C2 at a concrete file and index 0. -/
theorem read_log_parallel_sequences_witness :
    (read_log ["1700000000 x 12.5".data]).1.length =
      (read_log ["1700000000 x 12.5".data]).2.length ∧
    ∃ l ∈ ["1700000000 x 12.5".data], parseLine l =
      some ((read_log ["1700000000 x 12.5".data]).1.getD 0 0,
            (read_log ["1700000000 x 12.5".data]).2.getD 0 0) :=
  ⟨(read_log_parallel_sequences ["1700000000 x 12.5".data] 0).1,
   (read_log_parallel_sequences ["1700000000 x 12.5".data] 0).2 (by decide)⟩

/-- C4: `main` returns 0 on success and 1 exactly when the argument count is
wrong (usage message on stderr) or the parsed series is empty (diagnostic on
stderr); on success stdout confirms the output path. -/
theorem main_exit_code_policy (argv : List String) (file : List (List Char)) :
    ((main argv file).exitCode = 0 ∨ (main argv file).exitCode = 1) ∧
    ((main argv file).exitCode = 1 ↔ (argv.length ≠ 3 ∨ (read_log file).1 = [])) ∧
    (argv.length ≠ 3 → (main argv file).stderrLines = [usageMsg argv]) ∧
    (argv.length = 3 → (read_log file).1 = [] →
      (main argv file).stderrLines = ["No data points found."]) ∧
    ((main argv file).exitCode = 0 →
      (main argv file).stdoutLines = ["Wrote " ++ argv.getD 2 ""]) := by
  by_cases ha : argv.length = 3
  · by_cases he : (read_log file).1 = []
    · have hb : (read_log file).1.isEmpty = true := by rw [he]; rfl
      simp [main, ha, he, hb]
    · have hb : (read_log file).1.isEmpty = false := by
        cases h : (read_log file).1
        · exact absurd h he
        · rfl
      simp [main, ha, he, hb]
  · simp [main, ha]

/-- Witness for C4: wrong argument count gives exit 1; a successful run
confirms the output path on stdout. -/
theorem main_exit_code_policy_witness :
    (main ["./plot_benchmark.py"] []).exitCode = 1 ∧
    (main ["./plot_benchmark.py", "bench.log", "out.jpg"]
        ["1700000000 x 12.5".data]).stdoutLines = ["Wrote " ++ "out.jpg"] :=
  ⟨(main_exit_code_policy ["./plot_benchmark.py"] []).2.1.mpr (Or.inl (by decide)),
   (main_exit_code_policy ["./plot_benchmark.py", "bench.log", "out.jpg"]
      ["1700000000 x 12.5".data]).2.2.2.2 (by decide)⟩

/-- C10: when `main` exits with code 1, `plot` is never invoked. -/
theorem error_exit_never_plots (argv : List String) (file : List (List Char))
    (h : (main argv file).exitCode = 1) :
    (main argv file).plotCalled = false := by
  by_cases ha : argv.length = 3
  · by_cases hb : (read_log file).1.isEmpty
    · simp [main, ha, hb]
    · exfalso
      simp [main, ha, hb] at h
  · simp [main, ha]

/-- Witness for C10 at a wrong-argument-count invocation. -/
theorem error_exit_never_plots_witness :
    (main ["./plot_benchmark.py"] []).plotCalled = false :=
  error_exit_never_plots ["./plot_benchmark.py"] [] (by decide)

/-- Counterexample to C5 as stated: a log line whose third field is a
negative numeral produces a negative speed value in the series. -/
theorem read_log_speed_negative_cex :
    ¬ ∀ (ls : List (List Char)), ∀ s ∈ (read_log ls).2, 0 ≤ s := by
  intro h
  have := h ["1700000000 x -1".data] (mkRat (-1) 1) (by decide)
  exact absurd this (by decide)

/-- C6: on the two-line file `"1700000000 x 12.5\n1700000060 x 13.0\n"`,
`read_log` returns exactly 2 points with speeds 12.5 and 13.0, and `main`
exits with code 0. -/
theorem two_line_file_series_and_exit :
    read_log ["1700000000 x 12.5".data, "1700000060 x 13.0".data] =
      ([1700000000, 1700000060], [mkRat 25 2, mkRat 13 1]) ∧
    (read_log ["1700000000 x 12.5".data, "1700000060 x 13.0".data]).1.length = 2 ∧
    mkRat 25 2 = (25 : ℚ) / 2 ∧ mkRat 13 1 = (13 : ℚ) ∧
    (main ["./plot_benchmark.py", "bench.log", "out.jpg"]
       ["1700000000 x 12.5".data, "1700000060 x 13.0".data]).exitCode = 0 := by
  refine ⟨by decide, by decide, ?_, ?_, by decide⟩
  · rw [Rat.mkRat_eq_divInt, Rat.divInt_eq_div]; norm_num
  · rw [Rat.mkRat_eq_divInt, Rat.divInt_eq_div]; norm_num

/-- Stripping a line that starts with `"monitor start"` leaves that start
intact: the prefix begins and ends with non-whitespace characters. -/
theorem pyStrip_monStart_append (rest : List Char) :
    ∃ suff, pyStrip (monStart ++ rest) = monStart ++ suff := by
  have h1 : (monStart ++ rest).dropWhile isWSC = monStart ++ rest := by
    rw [List.dropWhile_append, (by decide : (monStart.dropWhile isWSC).isEmpty = false),
      (by decide : monStart.dropWhile isWSC = monStart)]
    simp
  unfold pyStrip
  rw [h1, List.reverse_append, List.dropWhile_append]
  by_cases hre : ((rest.reverse).dropWhile isWSC).isEmpty = true
  · refine ⟨[], ?_⟩
    rw [hre, (by decide : monStart.reverse.dropWhile isWSC = monStart.reverse)]
    simp
  · refine ⟨(rest.reverse.dropWhile isWSC).reverse, ?_⟩
    rw [Bool.not_eq_true] at hre
    rw [hre]
    simp

/-- A line starting with `"monitor start"` is skipped by `read_log`. -/
theorem parseLine_monStart (rest : List Char) :
    parseLine (monStart ++ rest) = none := by
  obtain ⟨suff, hs⟩ := pyStrip_monStart_append rest
  have hne : (monStart ++ suff).isEmpty = false := by
    have hnil : monStart ++ suff ≠ [] := by
      intro hcon
      exact absurd (List.append_eq_nil.mp hcon).1 (by decide)
    cases hcase : monStart ++ suff with
    | nil => exact absurd hcase hnil
    | cons a t => rfl
  have hsent : sentinelB (monStart ++ suff) = true := by
    have hp : monStart.isPrefixOf (monStart ++ suff) = true := by
      rw [List.isPrefixOf_iff_prefix]
      exact List.prefix_append _ _
    simp [sentinelB, hp]
  simp only [parseLine, hs, hne, hsent]
  simp

/-- C7: for an input file containing only a line beginning with
`"monitor start"`, `read_log` returns the empty series, and `main` writes
`"No data points found."` to stderr and exits with code 1. -/
theorem monitor_start_line_yields_empty_series (rest : List Char)
    (argv : List String) (h : argv.length = 3) :
    read_log [monStart ++ rest] = ([], []) ∧
    (main argv [monStart ++ rest]).exitCode = 1 ∧
    (main argv [monStart ++ rest]).stderrLines = ["No data points found."] := by
  have hr : read_log [monStart ++ rest] = ([], []) := by
    rw [read_log_eq]
    simp [parseLine_monStart]
  refine ⟨hr, ?_, ?_⟩ <;> simp [main, h, hr]

/-- Witness for C7 at a concrete monitor-start line and argument vector. -/
theorem monitor_start_line_yields_empty_series_witness :
    read_log [monStart ++ " nvme0n1".data] = ([], []) ∧
    (main ["./plot_benchmark.py", "in.log", "out.jpg"]
        [monStart ++ " nvme0n1".data]).exitCode = 1 ∧
    (main ["./plot_benchmark.py", "in.log", "out.jpg"]
        [monStart ++ " nvme0n1".data]).stderrLines = ["No data points found."] :=
  monitor_start_line_yields_empty_series " nvme0n1".data
    ["./plot_benchmark.py", "in.log", "out.jpg"] (by decide)

/-- On a line that passes the blank, sentinel and field-count guards,
`parseLine` is determined by fields 0 and 2 alone. -/
theorem parseLine_of_guards (raw : List Char)
    (h1 : (pyStrip raw).isEmpty = false) (h2 : sentinelB (pyStrip raw) = false)
    (h3 : ¬ (pySplitWS (pyStrip raw)).length < 3) :
    parseLine raw =
      match pyFloatChars ((pySplitWS (pyStrip raw)).getD 0 []),
          pyFloatChars ((pySplitWS (pyStrip raw)).getD 2 []) with
      | some a, some b => some (truncQ a, b)
      | _, _ => none := by
  simp only [parseLine, h1, h2, h3]
  simp

/-- C9: for every accepted data line the sample depends only on field 0 and
field 2: two lines that agree on those fields (both non-blank, non-sentinel,
with at least 3 fields) parse identically, and substituting one for the other
anywhere in a file leaves both output sequences of `read_log` unchanged. -/
theorem sample_depends_only_on_fields_zero_two
    (pre post : List (List Char)) (l₁ l₂ : List Char)
    (h1 : (pyStrip l₁).isEmpty = false) (h1' : (pyStrip l₂).isEmpty = false)
    (h2 : sentinelB (pyStrip l₁) = false) (h2' : sentinelB (pyStrip l₂) = false)
    (h3 : 3 ≤ (pySplitWS (pyStrip l₁)).length) (h3' : 3 ≤ (pySplitWS (pyStrip l₂)).length)
    (h4 : (pySplitWS (pyStrip l₁)).getD 0 [] = (pySplitWS (pyStrip l₂)).getD 0 [])
    (h5 : (pySplitWS (pyStrip l₁)).getD 2 [] = (pySplitWS (pyStrip l₂)).getD 2 []) :
    parseLine l₁ = parseLine l₂ ∧
    read_log (pre ++ l₁ :: post) = read_log (pre ++ l₂ :: post) := by
  have hp : parseLine l₁ = parseLine l₂ := by
    rw [parseLine_of_guards l₁ h1 h2 (Nat.not_lt.mpr h3),
      parseLine_of_guards l₂ h1' h2' (Nat.not_lt.mpr h3'), h4, h5]
  refine ⟨hp, ?_⟩
  rw [read_log_eq, read_log_eq]
  simp [List.filterMap_append, List.filterMap_cons, hp]

/-- Witness for C9: changing field 1 and the fields past index 2 of a line
does not change `read_log`'s output. -/
theorem sample_depends_only_on_fields_zero_two_witness :
    parseLine "10 sda 2.5 extra".data = parseLine "10 sdb 2.5".data ∧
    read_log ["junk".data, "10 sda 2.5 extra".data] =
      read_log ["junk".data, "10 sdb 2.5".data] :=
  sample_depends_only_on_fields_zero_two ["junk".data] []
    "10 sda 2.5 extra".data "10 sdb 2.5".data
    (by decide) (by decide) (by decide) (by decide)
    (by decide) (by decide) (by decide) (by decide)

/-! ## Truncation toward zero -/

/-- On non-negative rationals, truncation agrees with the floor. -/
theorem truncQ_eq_floor (q : ℚ) (h : 0 ≤ q) : truncQ q = ⌊q⌋ := by
  rw [Rat.floor_def]
  exact Int.tdiv_eq_ediv (Rat.num_nonneg.mpr h) (Int.natCast_nonneg q.den)

/-- Truncation toward zero is an odd function. -/
theorem truncQ_neg (q : ℚ) : truncQ (-q) = -truncQ q := by
  simp [truncQ, Rat.neg_num, Rat.neg_den, Int.neg_tdiv]

/-- On non-positive rationals, truncation agrees with the ceiling. -/
theorem truncQ_eq_ceil (q : ℚ) (h : q ≤ 0) : truncQ q = ⌈q⌉ := by
  have h0 : (0 : ℚ) ≤ -q := by linarith
  have hf := truncQ_eq_floor (-q) h0
  rw [truncQ_neg, Int.floor_neg] at hf
  omega

/-! ## Characterization of the faithful semantics -/

/-- The faithful loop returns successfully iff no line crashes, and then it
appends one element per accepted line to each list, in file order. -/
theorem readLogLoopE_ok_iff (ls : List (List Char)) :
    ∀ (acc r : List Int × List PyFloatV),
    readLogLoopE ls acc = .ok r ↔
      ((∀ l ∈ ls, ∃ o, parseLineE l = .ok o) ∧
       r = (acc.1 ++ (ls.filterMap sampleOf).map Prod.fst,
            acc.2 ++ (ls.filterMap sampleOf).map Prod.snd)) := by
  induction ls with
  | nil =>
    intro acc r
    simp [readLogLoopE, eq_comm]
  | cons l ls ih =>
    intro acc r
    cases h : parseLineE l with
    | error e =>
      refine iff_of_false ?_ ?_
      · intro hc
        simp only [readLogLoopE, h] at hc
        exact Except.noConfusion hc
      · rintro ⟨hall, -⟩
        obtain ⟨o, ho⟩ := hall l (List.mem_cons_self l ls)
        rw [h] at ho
        exact Except.noConfusion ho
    | ok o =>
      cases o with
      | none =>
        have hs : sampleOf l = none := by simp [sampleOf, h]
        simp only [readLogLoopE, h]
        rw [ih acc r]
        simp [List.filterMap_cons, hs, h]
      | some p =>
        have hs : sampleOf l = some p := by simp [sampleOf, h]
        simp only [readLogLoopE, h]
        rw [ih]
        simp [List.filterMap_cons, hs, h, List.append_assoc]

/-- `read_logE` returns successfully iff no line crashes, and then it is the
per-line parser mapped over the file. -/
theorem read_logE_ok_iff (ls : List (List Char)) (r : List Int × List PyFloatV) :
    read_logE ls = .ok r ↔
      ((∀ l ∈ ls, ∃ o, parseLineE l = .ok o) ∧
       r = ((ls.filterMap sampleOf).map Prod.fst,
            (ls.filterMap sampleOf).map Prod.snd)) := by
  rw [read_logE, readLogLoopE_ok_iff]
  simp

/-- A line contributes a sample exactly when it meets the faithful
acceptance condition. -/
theorem sampleOf_isSome_eq (raw : List Char) :
    (sampleOf raw).isSome = goodLineE raw := by
  simp only [sampleOf, parseLineE, goodLineE]
  cases h1 : (pyStrip raw).isEmpty with
  | true => simp [h1]
  | false =>
    cases h2 : sentinelB (pyStrip raw) with
    | true => simp [h1, h2]
    | false =>
      by_cases h3 : (pySplitWS (pyStrip raw)).length < 3
      · simp [h1, h2, h3, Nat.not_le_of_lt h3]
      · cases h4 : pyFloat? ((pySplitWS (pyStrip raw)).getD 0 []) with
        | none => simp [h1, h2, h3, h4, Nat.le_of_not_lt h3]
        | some v =>
          cases v with
          | nan => simp [h1, h2, h3, h4, Nat.le_of_not_lt h3]
          | posInf => simp [h1, h2, h3, h4, Nat.le_of_not_lt h3]
          | negInf => simp [h1, h2, h3, h4, Nat.le_of_not_lt h3]
          | fin q =>
            cases h5 : pyFloat? ((pySplitWS (pyStrip raw)).getD 2 []) with
            | none => simp [h1, h2, h3, h4, h5, Nat.le_of_not_lt h3]
            | some w =>
              by_cases h6 : truncQ q < minEpoch ∨ maxEpoch < truncQ q
              · have h7 : ¬ (minEpoch ≤ truncQ q ∧ truncQ q ≤ maxEpoch) := by omega
                simp [h1, h2, h3, h4, h5, h6, h7, Nat.le_of_not_lt h3]
              · have h7 : minEpoch ≤ truncQ q ∧ truncQ q ≤ maxEpoch := by omega
                simp [h1, h2, h3, h4, h5, h6, h7, Nat.le_of_not_lt h3]

/-- Counterexample to C1 as stated: the line `"1000000000000 x 1"` has 3
fields and both numeric fields parse (`float` succeeds on each), yet the
program crashes in `utcfromtimestamp` (year 33658) instead of contributing a
sample; and `"nan x 1"` also satisfies the claim's conditions, yet the
`ValueError` from `int(float("nan"))` is caught and the line contributes
nothing. -/
theorem read_log_one_sample_cex :
    claimC1Line "1000000000000 x 1".data = true ∧
    read_logE ["1000000000000 x 1".data] =
      .error (.timestampRange 1000000000000) ∧
    claimC1Line "nan x 1".data = true ∧
    read_logE ["nan x 1".data] = .ok ([], []) := by decide

/-- C1 amended: on an ASCII log file that `read_log` reads to completion,
every line that is non-blank, non-sentinel, has at least 3 fields, whose
field 0 parses to a finite float truncating into the supported epoch range,
and whose field 2 parses, contributes exactly one (timestamp, speed) sample,
in file order — pairing the two returned sequences gives exactly the
per-line samples — and those are exactly the accepted lines. -/
theorem read_logE_one_sample_per_accepted_line (ls : List (List Char))
    (ts : List Int) (sp : List PyFloatV)
    (hok : read_logE ls = .ok (ts, sp))
    (hascii : ∀ l ∈ ls, asciiLine l = true) :
    ts.zip sp = ls.filterMap sampleOf ∧
    (∀ raw : List Char, asciiLine raw = true →
      (sampleOf raw).isSome = goodLineE raw) := by
  obtain ⟨-, hr⟩ := (read_logE_ok_iff ls (ts, sp)).mp hok
  have hts : ts = (ls.filterMap sampleOf).map Prod.fst := congrArg Prod.fst hr
  have hsp : sp = (ls.filterMap sampleOf).map Prod.snd := congrArg Prod.snd hr
  refine ⟨?_, fun raw _ => sampleOf_isSome_eq raw⟩
  rw [hts, hsp, zip_map_fst_snd]

/-- Witness for the amended C1: a file whose accepted lines include an
exponent-notation timestamp, and an underscored-numeral line accepted per
the acceptance condition. -/
theorem read_logE_one_sample_per_accepted_line_witness :
    ([1700000000, 1000] : List Int).zip
        [PyFloatV.fin (mkRat 25 2), PyFloatV.fin (mkRat 5 1)] =
      ["1700000000 x 12.5".data, "1e3 x 5".data, "bad".data].filterMap sampleOf ∧
    (sampleOf "1_0 x 1".data).isSome = goodLineE "1_0 x 1".data :=
  ⟨(read_logE_one_sample_per_accepted_line
      ["1700000000 x 12.5".data, "1e3 x 5".data, "bad".data]
      [1700000000, 1000] [.fin (mkRat 25 2), .fin (mkRat 5 1)]
      (by decide) (by decide)).1,
   (read_logE_one_sample_per_accepted_line [] [] [] (by decide) (by decide)).2
      "1_0 x 1".data (by decide)⟩

/-- Counterexample to C3 as stated: `"inf x zzz"` has a non-numeric field 2,
one of the claim's skip categories, yet `read_log` raises an uncaught
`OverflowError`, because `int(float("inf"))` runs before field 2 is examined
and the `except` catches only `ValueError`. -/
theorem read_log_malformed_can_crash_cex :
    specBadLineE "inf x zzz".data = true ∧
    read_logE ["inf x zzz".data] = .error .intOfInf := by decide

/-- C3 amended: an ASCII line in one of the skip categories (fewer than 3
fields, unparsable field 0 or field 2, blank, sentinel) contributes no entry
and raises no error, provided its field 0 is not an infinity reaching the
epoch conversion; an empty file, or a file of only such lines, yields the
empty series without error. -/
theorem read_logE_skips_malformed (ls : List (List Char)) (raw : List Char) :
    (asciiLine raw = true → specBadLineE raw = true →
      infTimestampLine raw = false → parseLineE raw = .ok none) ∧
    read_logE ([] : List (List Char)) = .ok ([], []) ∧
    ((∀ l ∈ ls, asciiLine l = true ∧ specBadLineE l = true ∧
        infTimestampLine l = false) →
      read_logE ls = .ok ([], [])) := by
  have key : ∀ r : List Char, specBadLineE r = true → infTimestampLine r = false →
      parseLineE r = .ok none := by
    intro r hbad hinf
    simp only [parseLineE]
    cases h1 : (pyStrip r).isEmpty with
    | true => simp [h1]
    | false =>
      cases h2 : sentinelB (pyStrip r) with
      | true => simp [h1, h2]
      | false =>
        by_cases h3 : (pySplitWS (pyStrip r)).length < 3
        · simp [h1, h2, h3]
        · cases h4 : pyFloat? ((pySplitWS (pyStrip r)).getD 0 []) with
          | none => simp [h1, h2, h3, h4]
          | some v =>
            cases v with
            | nan => simp [h1, h2, h3, h4]
            | posInf =>
              exfalso
              have hcon : infTimestampLine r = true := by
                unfold infTimestampLine
                rw [h1, h2, h4]
                simp [Nat.le_of_not_lt h3]
              rw [hcon] at hinf
              exact Bool.noConfusion hinf
            | negInf =>
              exfalso
              have hcon : infTimestampLine r = true := by
                unfold infTimestampLine
                rw [h1, h2, h4]
                simp [Nat.le_of_not_lt h3]
              rw [hcon] at hinf
              exact Bool.noConfusion hinf
            | fin q =>
              cases h5 : pyFloat? ((pySplitWS (pyStrip r)).getD 2 []) with
              | none => simp [h1, h2, h3, h4, h5]
              | some w =>
                exfalso
                have hcon : specBadLineE r = false := by
                  unfold specBadLineE
                  rw [h1, h2, h4, h5]
                  simp [h3]
                rw [hcon] at hbad
                exact Bool.noConfusion hbad
  refine ⟨fun _ => key raw, rfl, ?_⟩
  intro hall
  rw [read_logE_ok_iff]
  refine ⟨fun l hl => ⟨none, key l (hall l hl).2.1 (hall l hl).2.2⟩, ?_⟩
  have hnil : ls.filterMap sampleOf = [] :=
    List.filterMap_eq_nil_iff.mpr fun l hl => by
      simp [sampleOf, key l (hall l hl).2.1 (hall l hl).2.2]
  rw [hnil]
  rfl

/-- Witness for the amended C3 at a concrete short line and a concrete
fully-malformed file. -/
theorem read_logE_skips_malformed_witness :
    parseLineE "1 2".data = .ok none ∧
    read_logE ["".data, "monitor start x".data, "[iostat] y".data,
      "zzz a b".data] = .ok ([], []) :=
  ⟨(read_logE_skips_malformed [] "1 2".data).1 (by decide) (by decide) (by decide),
   (read_logE_skips_malformed
      ["".data, "monitor start x".data, "[iostat] y".data, "zzz a b".data]
      []).2.2 (by decide)⟩

/-- C5 amended: on an ASCII file read to completion, the speed sequence is
exactly the float-parsed field 2 of the accepted lines, verbatim — negative,
infinite, and NaN values included — so every speed is a non-negative real
number exactly when every accepted line's field 2 parses to a non-negative
finite value. -/
theorem read_logE_speeds_verbatim (ls : List (List Char)) (ts : List Int)
    (sp : List PyFloatV) (hok : read_logE ls = .ok (ts, sp))
    (hascii : ∀ l ∈ ls, asciiLine l = true) :
    sp = (ls.filterMap sampleOf).map Prod.snd ∧
    (sp.all speedNonnegB = true ↔
      ∀ l ∈ ls, (sampleOf l).all (fun p => speedNonnegB p.2) = true) := by
  obtain ⟨-, hr⟩ := (read_logE_ok_iff ls (ts, sp)).mp hok
  have hsp : sp = (ls.filterMap sampleOf).map Prod.snd := congrArg Prod.snd hr
  refine ⟨hsp, ?_, ?_⟩
  · intro hall l hl
    cases hs : sampleOf l with
    | none => rfl
    | some p =>
      have hmem : p ∈ ls.filterMap sampleOf := List.mem_filterMap.mpr ⟨l, hl, hs⟩
      have hv : p.2 ∈ sp := by
        rw [hsp]
        exact List.mem_map.mpr ⟨p, hmem, rfl⟩
      have := (List.all_eq_true.mp hall) _ hv
      simpa [Option.all] using this
  · intro hall
    rw [List.all_eq_true]
    intro v hv
    rw [hsp] at hv
    obtain ⟨p, hp, rfl⟩ := List.mem_map.mp hv
    obtain ⟨l, hl, hsl⟩ := List.mem_filterMap.mp hp
    have := hall l hl
    rw [hsl] at this
    simpa [Option.all] using this

/-- Witness for the amended C5: the speed of `"10 x -1e0"` is the parsed
value −1 verbatim, and a non-negative file has non-negative speeds. -/
theorem read_logE_speeds_verbatim_witness :
    [PyFloatV.fin (mkRat (-1) 1)] =
      ((["10 x -1e0".data].filterMap sampleOf).map Prod.snd) ∧
    [PyFloatV.fin (mkRat 25 2)].all speedNonnegB = true :=
  ⟨(read_logE_speeds_verbatim ["10 x -1e0".data] [10] [.fin (mkRat (-1) 1)]
      (by decide) (by decide)).1,
   (read_logE_speeds_verbatim ["1700000000 x 12.5".data] [1700000000]
      [.fin (mkRat 25 2)] (by decide) (by decide)).2.mpr (by decide)⟩

/-- The timestamp of every accepted line is the binary64 value of field 0,
truncated toward zero. -/
theorem parseLineE_timestamp_from_field0 (l : List Char) (t : Int)
    (v : PyFloatV) (h : parseLineE l = .ok (some (t, v))) :
    ∃ q, pyFloat? ((pySplitWS (pyStrip l)).getD 0 []) = some (.fin q) ∧
      t = truncQ q := by
  simp only [parseLineE] at h
  split at h
  · exact absurd h (by simp)
  · split at h
    · exact absurd h (by simp)
    · split at h
      · exact absurd h (by simp)
      · split at h
        · exact absurd h (by simp)
        · exact absurd h (by simp)
        · exact absurd h (by simp)
        · exact absurd h (by simp)
        · rename_i q heq
          split at h
          · exact absurd h (by simp)
          · split at h
            · exact absurd h (by simp)
            · simp only [Except.ok.injEq, Option.some.injEq, Prod.mk.injEq] at h
              exact ⟨q, heq, h.1.symm⟩

/-- Counterexample to C8's fraction-irrelevance as stated: Python rounds to
binary64 before `int()` truncates, so `"0.9999999999999999999"` (within half
an ulp of 1) yields timestamp 1, while `"0"`, differing only in the
fractional part, yields timestamp 0. -/
theorem timestamp_fraction_rounds_cex :
    pyFloat? "0.9999999999999999999".data = some (.fin (mkRat 1 1)) ∧
    pyFloat? "0".data = some (.fin 0) ∧
    read_logE ["0.9999999999999999999 x 1".data] =
      .ok ([1], [.fin (mkRat 1 1)]) ∧
    read_logE ["0 x 1".data] = .ok ([0], [.fin (mkRat 1 1)]) ∧
    (1 : Int) ≠ 0 := by decide

/-- C8 amended: the timestamp is the round-to-nearest binary64 value of
field 0 truncated toward zero — floor on non-negatives, ceiling on
non-positives — so fractional parts preserve the timestamp whenever rounding
preserves the integer part, as for `"1700000000"` and `"1700000000.9"`, but
not when the fraction lies within half an ulp of the next integer. -/
theorem timestampE_truncates_toward_zero :
    (∀ q : ℚ, (0 ≤ q → truncQ q = ⌊q⌋) ∧ (q ≤ 0 → truncQ q = ⌈q⌉)) ∧
    (∀ (l : List Char) (t : Int) (v : PyFloatV),
      parseLineE l = .ok (some (t, v)) →
      ∃ q, pyFloat? ((pySplitWS (pyStrip l)).getD 0 []) = some (.fin q) ∧
        t = truncQ q) ∧
    (read_logE ["1700000000 x 1".data] =
        .ok ([1700000000], [.fin (mkRat 1 1)]) ∧
     read_logE ["1700000000.9 x 1".data] =
        .ok ([1700000000], [.fin (mkRat 1 1)])) :=
  ⟨fun q => ⟨truncQ_eq_floor q, truncQ_eq_ceil q⟩,
   parseLineE_timestamp_from_field0, by decide⟩

/-- Witness for the amended C8: 12.5 truncates via the floor, and the
timestamp of `"1700000000.9 x 1"` comes from its field 0. -/
theorem timestampE_truncates_toward_zero_witness :
    truncQ (mkRat 25 2) = ⌊(mkRat 25 2 : ℚ)⌋ ∧
    (∃ q, pyFloat? ((pySplitWS (pyStrip "1700000000.9 x 1".data)).getD 0 []) =
        some (.fin q) ∧ (1700000000 : Int) = truncQ q) :=
  ⟨(timestampE_truncates_toward_zero.1 (mkRat 25 2)).1 (by decide),
   timestampE_truncates_toward_zero.2.1 "1700000000.9 x 1".data 1700000000
     (.fin (mkRat 1 1)) (by decide)⟩

example : read_log ["1700000000 x 12.5".data, "1700000060 x 13.0".data] =
    ([1700000000, 1700000060], [mkRat 25 2, mkRat 13 1]) := by decide

example : pyFloat? "1e3".data = some (.fin (mkRat 1000 1)) := by decide

example : pyFloat? "1_0.5".data = some (.fin (mkRat 21 2)) := by decide

example : pyFloat? "-Infinity".data = some .negInf := by decide

example : pyFloat? "0.1".data =
    some (.fin (mkRat 3602879701896397 36028797018963968)) := by decide

example : parseLineE "1700000000.9 x 1".data =
    .ok (some (1700000000, .fin (mkRat 1 1))) := by decide

example : parseLine "monitor start foo".data = none := by decide

example : pyFloatChars "-12.5".data = some (mkRat (-25) 2) := by decide

example : truncQ (mkRat 25 2) = 12 := by decide

example : truncQ (mkRat (-25) 2) = -12 := by decide

end PlotBenchmark
